import Mathlib

/-!
Shallow embedding of the data-aggregation and agent-telemetry core of the
`rag_pipeline_demo` repository (files `src/data_aggregator.py`,
`src/agent_telemetry.py`, and the `instrument_tool` adapter of
`src/app_hybrid.py`), together with theorems settling the frozen claims
about that code.

Modelling conventions:
- A dataframe cell is a `Value`: a numeric value (modelled exactly as a
  rational, since the claims under study are about exact arithmetic
  identities and error paths, not floating-point rounding), a text value,
  or null (pandas `NaN`/`None`).
- A pandas `DataFrame` is a header of column names plus a list of rows.
- A column is "numeric" when every non-null value in it is numeric (the
  per-column type-inference rule of the design's data model).
- Python `ValueError`/`KeyError` exceptions become the `Except AggError`
  monad; `AggError.valueError` carries the exact message the source builds,
  `AggError.keyError` models the pandas lookup failure raised by
  `dataframe[column]` on a missing column (it carries the key).
- Python dicts are association lists with insertion-order update semantics
  (`pyUpdate`): writing an existing key overwrites in place, a new key is
  appended; this captures the `{str(k): v for ...}` comprehensions, where
  two distinct group keys with equal `str` renderings collide.
-/

/-- A scalar cell value of a dataset: numeric, text, or null. -/
inductive Value where
  | num (q : ℚ)
  | str (s : String)
  | null
deriving DecidableEq, Repr

namespace Value

/-- Is this value numeric? -/
def isNum : Value → Bool
  | num _ => true
  | _ => false

/-- Is this value null? -/
def isNull : Value → Bool
  | null => true
  | _ => false

/-- The Python `str(...)` rendering of a value, as used by the group-by
dict comprehensions.  A Python `int` renders without a decimal point, so a
numeric value with denominator 1 renders as its integer numerator; the
rendering of non-integral numerics is immaterial to the claims. -/
def render : Value → String
  | num q => if q.den = 1 then toString q.num else toString q.num ++ "/" ++ toString q.den
  | str s => s
  | null => "None"

end Value

/-- An in-memory tabular dataset: a header of column names and a list of
rows, each row listing its cells in header order. -/
structure DataFrame where
  cols : List String
  rows : List (List Value)

/-- Index of a column in the header (first occurrence; column names are
unique per the data model). -/
def DataFrame.colIdx (df : DataFrame) (c : String) : ℕ :=
  df.cols.findIdx (fun s => s = c)

/-- The series `df[c]`: the column's cells in row order. -/
def DataFrame.series (df : DataFrame) (c : String) : List Value :=
  df.rows.map (fun r => r.getD (df.colIdx c) Value.null)

/-- The non-null numeric entries of a list of cells (pandas numeric
reductions skip `NaN`). -/
def numsOf (vs : List Value) : List ℚ :=
  vs.filterMap (fun v => match v with | Value.num q => some q | _ => none)

/-- Per-column type inference: a column is numeric when every non-null
value in it is numeric. -/
def numericList (vs : List Value) : Bool :=
  vs.all (fun v => v.isNum || v.isNull)

/-- Errors raised by the aggregation engine: `valueError` is a Python
`ValueError` carrying its message; `keyError` is the pandas `KeyError`
raised by `dataframe[column]` when `column` is absent, carrying the key. -/
inductive AggError where
  | valueError (msg : String)
  | keyError (key : String)
deriving DecidableEq, Repr

/-- The message of `ValueError(f"Column '{column}' not found")`. -/
def columnNotFound (c : String) : AggError :=
  AggError.valueError ("Column " ++ "'" ++ c ++ "'" ++ " not found")

deriving instance DecidableEq for Except

/-- Is this error a Python `ValueError` (the engine's own validation
errors), as opposed to a pandas `KeyError`? -/
def AggError.isValueError : AggError → Bool
  | AggError.valueError _ => true
  | AggError.keyError _ => false

/-- The message of `ValueError(f"Column '{column}' is not numeric")`. -/
def notNumeric (c : String) : AggError :=
  AggError.valueError ("Column " ++ "'" ++ c ++ "'" ++ " is not numeric")

/-- Minimum of a list of rationals (pandas `.min()` over non-null values;
the empty case, `NaN` in pandas, is defaulted and unreachable under the
claims' hypotheses). -/
def listMin : List ℚ → ℚ
  | [] => 0
  | q :: qs => qs.foldl min q

/-- Maximum of a list of rationals (pandas `.max()`). -/
def listMax : List ℚ → ℚ
  | [] => 0
  | q :: qs => qs.foldl max q

/-- Statistical median of a list of rationals (pandas `.median()`): middle
element of the sorted list, or the mean of the two central elements for an
even count; the empty case is defaulted and unreachable under the claims'
hypotheses. -/
def listMedian (qs : List ℚ) : ℚ :=
  let sorted := qs.mergeSort (fun a b => a ≤ b)
  if sorted.length = 0 then 0
  else if sorted.length % 2 = 1 then
    sorted.getD (sorted.length / 2) 0
  else
    (sorted.getD (sorted.length / 2 - 1) 0 + sorted.getD (sorted.length / 2) 0) / 2

/-- A proof-friendly characterization of first-occurrence deduplication:
keep the head and recurse on the tail purged of its duplicates. -/
def nubFO : List Value → List Value
  | [] => []
  | v :: t => v :: nubFO (t.filter (fun w => w ≠ v))
termination_by l => l.length
decreasing_by
  simp only [List.length_cons]
  exact Nat.lt_succ_of_le (t.length_filter_le _)

/-- The loop of pandas `Series.unique()`: walk the column once, keeping
each value the first time it is seen (`seen` is the hash-set accumulator;
all nulls collapse to the single `Value.null`, matching pandas treating
`NaN`/`None` as one distinct entry). -/
def firstOccAux : List Value → List Value → List Value
  | [], _ => []
  | v :: t, seen => if v ∈ seen then firstOccAux t seen else v :: firstOccAux t (v :: seen)

/-- The distinct values of a list in first-occurrence order (the semantics
of pandas `Series.unique()`). -/
def firstOcc (l : List Value) : List Value :=
  firstOccAux l []

/-- Python-dict insertion: overwrite the first binding of the key in
place, else append the binding. -/
def pyUpdate (d : List (String × α)) (k : String) (v : α) : List (String × α) :=
  match d with
  | [] => [(k, v)]
  | (k', v') :: t => if k' = k then (k, v) :: t else (k', v') :: pyUpdate t k v

/-- Build a Python dict from a list of key/value pairs in order (the
`{str(k): f(v) for k, v in grouped.items()}` comprehensions): later
bindings of an already-present key overwrite the earlier ones. -/
def pyDict (ps : List (String × α)) : List (String × α) :=
  ps.foldl (fun d p => pyUpdate d p.1 p.2) []

/-- First binding of a key in an association list (Python dict lookup). -/
def alookup (d : List (String × α)) (k : String) : Option α :=
  match d with
  | [] => none
  | (k', v) :: t => if k' = k then some v else alookup t k

namespace DataAggregator

/-- Embeds `DataAggregator.count_rows`: total number of rows. -/
def count_rows (df : DataFrame) : ℕ :=
  df.rows.length

/-- Embeds `DataAggregator.count_columns`: total number of columns. -/
def count_columns (df : DataFrame) : ℕ :=
  df.cols.length

/-- Embeds `DataAggregator.sum_column`: validate existence and numericness, then
`float(dataframe[column].sum())` — the sum of the non-null values. -/
def sum_column (df : DataFrame) (column : String) : Except AggError ℚ :=
  if column ∉ df.cols then Except.error (columnNotFound column)
  else if ¬ numericList (df.series column) then Except.error (notNumeric column)
  else Except.ok (numsOf (df.series column)).sum

/-- Embeds `DataAggregator.average_column`: validate, then
`float(dataframe[column].mean())` — the sum of the non-null values divided
by their count (pandas yields `NaN` for an all-null column; the claims
only speak about a positive count, where the rational quotient is exact). -/
def average_column (df : DataFrame) (column : String) : Except AggError ℚ :=
  if column ∉ df.cols then Except.error (columnNotFound column)
  else if ¬ numericList (df.series column) then Except.error (notNumeric column)
  else Except.ok ((numsOf (df.series column)).sum / (numsOf (df.series column)).length)

/-- Embeds `DataAggregator.min_column`: validate, then `float(dataframe[column].min())`. -/
def min_column (df : DataFrame) (column : String) : Except AggError ℚ :=
  if column ∉ df.cols then Except.error (columnNotFound column)
  else if ¬ numericList (df.series column) then Except.error (notNumeric column)
  else Except.ok (listMin (numsOf (df.series column)))

/-- Embeds `DataAggregator.max_column`: validate, then `float(dataframe[column].max())`. -/
def max_column (df : DataFrame) (column : String) : Except AggError ℚ :=
  if column ∉ df.cols then Except.error (columnNotFound column)
  else if ¬ numericList (df.series column) then Except.error (notNumeric column)
  else Except.ok (listMax (numsOf (df.series column)))

/-- Embeds `DataAggregator.median_column`: validate, then `float(dataframe[column].median())`. -/
def median_column (df : DataFrame) (column : String) : Except AggError ℚ :=
  if column ∉ df.cols then Except.error (columnNotFound column)
  else if ¬ numericList (df.series column) then Except.error (notNumeric column)
  else Except.ok (listMedian (numsOf (df.series column)))

/-- Embeds `DataAggregator.count_column`: validate existence, then
`int(dataframe[column].count())` — the number of non-null values. -/
def count_column (df : DataFrame) (column : String) : Except AggError ℕ :=
  if column ∉ df.cols then Except.error (columnNotFound column)
  else Except.ok ((df.series column).filter (fun v => !v.isNull)).length

/-- Embeds `DataAggregator.unique_count`: validate existence, then
`int(dataframe[column].nunique())` — the number of distinct non-null
values (pandas `nunique` excludes nulls). -/
def unique_count (df : DataFrame) (column : String) : Except AggError ℕ :=
  if column ∉ df.cols then Except.error (columnNotFound column)
  else Except.ok (firstOcc ((df.series column).filter (fun v => !v.isNull))).length

/-- Embeds `DataAggregator.unique_values`: validate existence, then
`dataframe[column].unique().tolist()[:20]` — the distinct values in
first-occurrence order (null included, collapsed to one entry), truncated
to the first 20. -/
def unique_values (df : DataFrame) (column : String) : Except AggError (List Value) :=
  if column ∉ df.cols then Except.error (columnNotFound column)
  else Except.ok ((firstOcc (df.series column)).take 20)

/-- The distinct non-null keys of the grouping column, paired with the
rows of the value series falling in each group — the partition produced by
`dataframe.groupby(group_column)[value_column]` (pandas drops rows whose
group key is null).  Group iteration order is modelled as first-occurrence
order; pandas emits groups in sorted key order, which affects only which
binding survives a `str`-rendering collision in the dict comprehension,
something no claim depends on. -/
def groups (df : DataFrame) (g v : String) : List (Value × List Value) :=
  (firstOcc ((df.series g).filter (fun w => !w.isNull))).map
    (fun k => (k, (((df.series g).zip (df.series v)).filter (fun p => p.1 = k)).map (fun p => p.2)))

/-- Embeds `DataAggregator.groupby_sum`: validate both columns and the value
column's numericness, then `dataframe.groupby(group_column)[value_column].sum()`
rendered through `{str(k): float(v) for ...}`. -/
def groupby_sum (df : DataFrame) (group_column value_column : String) :
    Except AggError (List (String × ℚ)) :=
  if group_column ∉ df.cols then
    Except.error (AggError.valueError ("Group column " ++ "'" ++ group_column ++ "'" ++ " not found"))
  else if value_column ∉ df.cols then
    Except.error (AggError.valueError ("Value column " ++ "'" ++ value_column ++ "'" ++ " not found"))
  else if ¬ numericList (df.series value_column) then
    Except.error (notNumeric value_column)
  else
    Except.ok (pyDict ((groups df group_column value_column).map
      (fun p => (p.1.render, (numsOf p.2).sum))))

/-- Embeds `DataAggregator.groupby_average`: like `groupby_sum` with the per-group
mean of the non-null values. -/
def groupby_average (df : DataFrame) (group_column value_column : String) :
    Except AggError (List (String × ℚ)) :=
  if group_column ∉ df.cols then
    Except.error (AggError.valueError ("Group column " ++ "'" ++ group_column ++ "'" ++ " not found"))
  else if value_column ∉ df.cols then
    Except.error (AggError.valueError ("Value column " ++ "'" ++ value_column ++ "'" ++ " not found"))
  else if ¬ numericList (df.series value_column) then
    Except.error (notNumeric value_column)
  else
    Except.ok (pyDict ((groups df group_column value_column).map
      (fun p => (p.1.render, (numsOf p.2).sum / (numsOf p.2).length))))

/-- Embeds `DataAggregator.groupby_count`: validate the grouping column, then
`dataframe.groupby(group_column).size()` rendered through
`{str(k): int(v) for ...}` — partition sizes over rows with a non-null
group key. -/
def groupby_count (df : DataFrame) (group_column : String) :
    Except AggError (List (String × ℕ)) :=
  if group_column ∉ df.cols then
    Except.error (AggError.valueError ("Group column " ++ "'" ++ group_column ++ "'" ++ " not found"))
  else
    Except.ok (pyDict ((firstOcc ((df.series group_column).filter (fun w => !w.isNull))).map
      (fun k => (k.render, ((df.series group_column).filter (fun w => w = k)).length))))

/-- The row restriction `dataframe[dataframe[filter_column] == filter_value]`:
keep the rows whose cell in the filter column equals the filter value
(typed equality; a null cell compares unequal to everything, as pandas
`NaN` comparisons yield `False`).  The columns are unchanged. -/
def filterRows (df : DataFrame) (filter_column : String) (filter_value : Value) : DataFrame :=
  { cols := df.cols,
    rows := df.rows.filter
      (fun r => !(r.getD (df.colIdx filter_column) Value.null).isNull
        && decide (r.getD (df.colIdx filter_column) Value.null = filter_value)) }

/-- Embeds `DataAggregator.filter_and_aggregate`: look the filter column up (a
missing filter column raises a pandas `KeyError`, not an engine
`ValueError`), restrict to the matching rows, fail on an empty result,
then dispatch on the aggregation keyword (`count` returns an integer,
coerced to the numeric result type here as Python's `int` flows into the
`float`-annotated return). -/
def filter_and_aggregate (df : DataFrame) (filter_column : String) (filter_value : Value)
    (agg_column : String) (agg_func : String) : Except AggError ℚ :=
  if filter_column ∉ df.cols then Except.error (AggError.keyError filter_column)
  else
    let filtered := filterRows df filter_column filter_value
    if filtered.rows.isEmpty then
      Except.error (AggError.valueError
        ("No rows found where " ++ filter_column ++ " == " ++ filter_value.render))
    else if agg_func = "sum" then sum_column filtered agg_column
    else if agg_func = "avg" then average_column filtered agg_column
    else if agg_func = "min" then min_column filtered agg_column
    else if agg_func = "max" then max_column filtered agg_column
    else if agg_func = "median" then median_column filtered agg_column
    else if agg_func = "count" then (count_column filtered agg_column).map (fun n => (n : ℚ))
    else Except.error (AggError.valueError ("Unknown aggregation function: " ++ agg_func))

end DataAggregator

/-!
Telemetry core (`src/agent_telemetry.py`): the `ToolCall` record, the
`AgentTelemetry` collector with FIFO-bounded history, and its query
methods.  Timestamps are opaque strings supplied by the caller (the wall
clock is external); durations are exact rationals.
-/

/-- Embeds `ToolCall` (a dataclass): one recorded invocation.  The input snapshot
is a single truncated string (the source stores a two-field dict of the
truncated `str(args)`/`str(kwargs)`; collapsing it to one string loses
nothing the claims mention).  The output snapshot is `none` for a failed
call, mirroring `tool_output=None`. -/
structure ToolCall where
  timestamp : String
  tool_name : String
  tool_input : String
  tool_output : Option String
  execution_time_ms : ℚ
  success : Bool
  error_message : Option String
deriving DecidableEq, Repr

/-- Embeds `AgentTelemetry` state: the capacity and the retained history in
insertion order (oldest first). -/
structure AgentTelemetry where
  max_history : ℕ
  tool_calls : List ToolCall

/-- Embeds `AgentTelemetry.__init__(max_history)`: empty history. -/
def AgentTelemetry.mk0 (max_history : ℕ) : AgentTelemetry :=
  { max_history := max_history, tool_calls := [] }

/-- Embeds `AgentTelemetry.log_tool_call`: append the new record, then
`if len(self.tool_calls) > self.max_history: self.tool_calls.pop(0)` —
drop the oldest record when the insert exceeded capacity. -/
def AgentTelemetry.log_tool_call (t : AgentTelemetry) (c : ToolCall) : AgentTelemetry :=
  let appended := t.tool_calls ++ [c]
  { t with tool_calls := if appended.length > t.max_history then appended.tail else appended }

/-- Embeds `AgentTelemetry.get_latest_call`: `self.tool_calls[-1]` or `None`. -/
def AgentTelemetry.get_latest_call (t : AgentTelemetry) : Option ToolCall :=
  t.tool_calls.getLast?

/-- Python `lst[-n:]` for a natural `n`: the last `n` elements — except
that `n = 0` degenerates to the whole list (`lst[-0:]` is `lst[0:]`). -/
def pyTakeLast (l : List α) (n : ℕ) : List α :=
  if n = 0 then l else l.drop (l.length - n)

/-- Embeds `AgentTelemetry.get_call_history(n)`: `list(reversed(self.tool_calls))`
when `n` is `None`, else `list(reversed(self.tool_calls[-n:]))` — the most
recent records, newest first. -/
def AgentTelemetry.get_call_history (t : AgentTelemetry) (n : Option ℕ) : List ToolCall :=
  match n with
  | none => t.tool_calls.reverse
  | some k => (pyTakeLast t.tool_calls k).reverse

/-- Embeds `AgentTelemetry.get_tool_call_counts`: per-tool invocation counts over
the retained history, as a Python dict keyed by tool name. -/
def AgentTelemetry.get_tool_call_counts (t : AgentTelemetry) : List (String × ℕ) :=
  t.tool_calls.foldl
    (fun counts call => pyUpdate counts call.tool_name ((alookup counts call.tool_name).getD 0 + 1))
    []

/-- One iteration of `get_tool_success_rate`'s statistics loop: initialize
the tool's `{"total": 0, "success": 0}` entry if missing, then increment
`total` and, on success, `success` — as `(success, total)` counters. -/
def successStep (stats : List (String × (ℕ × ℕ))) (call : ToolCall) : List (String × (ℕ × ℕ)) :=
  let st := (alookup stats call.tool_name).getD (0, 0)
  pyUpdate stats call.tool_name (st.1 + (if call.success then 1 else 0), st.2 + 1)

/-- The per-tool `{"total": _, "success": _}` statistics accumulated by
`get_tool_success_rate` before the rate division, as `(success, total)`. -/
def successStats (calls : List ToolCall) : List (String × (ℕ × ℕ)) :=
  calls.foldl successStep []

/-- Embeds `AgentTelemetry.get_tool_success_rate`: per-tool
`success / total if total > 0 else 0.0` over the retained history. -/
def AgentTelemetry.get_tool_success_rate (t : AgentTelemetry) : List (String × ℚ) :=
  (successStats t.tool_calls).map
    (fun p => (p.1, if p.2.2 > 0 then (p.2.1 : ℚ) / (p.2.2 : ℚ) else 0))

/-- The per-tool duration lists accumulated by `get_average_execution_time`. -/
def durationLists (calls : List ToolCall) : List (String × List ℚ) :=
  calls.foldl
    (fun acc call =>
      pyUpdate acc call.tool_name ((alookup acc call.tool_name).getD [] ++ [call.execution_time_ms]))
    []

/-- Embeds `AgentTelemetry.get_average_execution_time`: per-tool mean duration
over the retained history. -/
def AgentTelemetry.get_average_execution_time (t : AgentTelemetry) : List (String × ℚ) :=
  (durationLists t.tool_calls).map (fun p => (p.1, p.2.sum / p.2.length))

/-- Embeds `AgentTelemetry.get_summary`: session duration (the clock is passed in
as the elapsed seconds, an external input), total retained calls, and the
three per-tool mappings. -/
structure TelemetrySummary where
  session_duration_seconds : ℚ
  total_tool_calls : ℕ
  tool_call_counts : List (String × ℕ)
  tool_success_rates : List (String × ℚ)
  average_execution_times_ms : List (String × ℚ)

def AgentTelemetry.get_summary (t : AgentTelemetry) (elapsed : ℚ) : TelemetrySummary :=
  { session_duration_seconds := elapsed,
    total_tool_calls := t.tool_calls.length,
    tool_call_counts := t.get_tool_call_counts,
    tool_success_rates := t.get_tool_success_rate,
    average_execution_times_ms := t.get_average_execution_time }

/-- Embeds `AgentTelemetry.clear`: empty the retained history. -/
def AgentTelemetry.clear (t : AgentTelemetry) : AgentTelemetry :=
  { t with tool_calls := [] }

/-- One mutating collector operation: a `log_tool_call` or a `clear`. -/
inductive TelemetryOp where
  | record (c : ToolCall)
  | clear

/-- Apply one mutating operation to the collector. -/
def AgentTelemetry.applyOp (t : AgentTelemetry) : TelemetryOp → AgentTelemetry
  | TelemetryOp.record c => t.log_tool_call c
  | TelemetryOp.clear => t.clear

/-!
Instrumentation adapter (`instrument_tool` in `src/app_hybrid.py`).  The
wrapped Python callable is modelled as `f : α → Except String β` (an
exception is its `str(e)` message); serialization of inputs and results
(Python `str`) is a parameter; the wall-clock timestamp and measured
duration are external inputs.  The adapter returns the callable's outcome
unchanged and the collector with exactly one logged call.
-/

/-- Embeds `instrument_tool(...)`'s `wrapper`: invoke `f`; on normal return log a
successful `ToolCall` whose input/output snapshots are the serializations
truncated to 200 characters and return the result; on an exception log a
failed `ToolCall` carrying the exception's message (output `None`) and
re-raise. -/
def instrument_tool (f : α → Except String β) (tool_name : String)
    (serIn : α → String) (serOut : β → String)
    (t : AgentTelemetry) (x : α) (ts : String) (dur : ℚ) :
    Except String β × AgentTelemetry :=
  match f x with
  | Except.ok r =>
      (Except.ok r,
        t.log_tool_call
          { timestamp := ts, tool_name := tool_name,
            tool_input := (serIn x).take 200,
            tool_output := some ((serOut r).take 200),
            execution_time_ms := dur, success := true, error_message := none })
  | Except.error e =>
      (Except.error e,
        t.log_tool_call
          { timestamp := ts, tool_name := tool_name,
            tool_input := (serIn x).take 200,
            tool_output := none,
            execution_time_ms := dur, success := false, error_message := some e })

/-!
Helper lemmas about the Python-dict association lists and the
first-occurrence distinct-value list.
-/

theorem alookup_pyUpdate_self (d : List (String × α)) (k : String) (v : α) :
    alookup (pyUpdate d k v) k = some v := by
  induction d with
  | nil => simp [pyUpdate, alookup]
  | cons p t ih =>
    obtain ⟨k', v'⟩ := p
    by_cases h : k' = k
    · simp [pyUpdate, h, alookup]
    · simp [pyUpdate, h, alookup, ih]

theorem alookup_pyUpdate_ne (d : List (String × α)) (k k' : String) (v : α) (h : k' ≠ k) :
    alookup (pyUpdate d k v) k' = alookup d k' := by
  induction d with
  | nil => simp [pyUpdate, alookup, Ne.symm h]
  | cons p t ih =>
    obtain ⟨k'', v''⟩ := p
    by_cases hk : k'' = k
    · subst hk
      simp [pyUpdate, alookup, Ne.symm h]
    · simp only [pyUpdate, hk, if_false, alookup]
      by_cases hk' : k'' = k' <;> simp [hk', ih]

theorem pyUpdate_not_mem (d : List (String × α)) (k : String) (v : α)
    (h : k ∉ d.map Prod.fst) : pyUpdate d k v = d ++ [(k, v)] := by
  induction d with
  | nil => simp [pyUpdate]
  | cons p t ih =>
    obtain ⟨k', v'⟩ := p
    simp only [List.map_cons, List.mem_cons, not_or] at h
    simp [pyUpdate, Ne.symm h.1, ih h.2]

theorem foldl_pyUpdate_append (ps : List (String × α)) : ∀ (acc : List (String × α)),
    (∀ k, k ∈ acc.map Prod.fst → k ∉ ps.map Prod.fst) →
    (ps.map Prod.fst).Nodup →
    ps.foldl (fun d p => pyUpdate d p.1 p.2) acc = acc ++ ps := by
  induction ps with
  | nil => simp
  | cons p t ih =>
    intro acc hdisj hnodup
    obtain ⟨k, v⟩ := p
    have hk : k ∉ acc.map Prod.fst := by
      intro hmem
      exact hdisj k hmem (by simp)
    rw [List.foldl_cons]
    rw [pyUpdate_not_mem _ _ _ hk]
    rw [ih]
    · simp
    · intro k' hk'
      simp only [List.map_append, List.mem_append, List.map_cons, List.mem_singleton] at hk'
      rcases hk' with hacc | hkk
      · have := hdisj k' hacc
        simp only [List.map_cons, List.mem_cons, not_or] at this
        exact this.2
      · simp only [List.map_nil, List.mem_cons, List.not_mem_nil, or_false] at hkk
        rw [hkk]
        simp only [List.map_cons, List.nodup_cons] at hnodup
        exact hnodup.1
    · simp only [List.map_cons, List.nodup_cons] at hnodup
      exact hnodup.2

theorem pyDict_eq_self (ps : List (String × α)) (h : (ps.map Prod.fst).Nodup) :
    pyDict ps = ps := by
  rw [pyDict, foldl_pyUpdate_append ps [] (by simp) h]
  simp

theorem alookup_map_value (l : List (String × α)) (f : α → β) (k : String) :
    alookup (l.map (fun p => (p.1, f p.2))) k = (alookup l k).map f := by
  induction l with
  | nil => rfl
  | cons p t ih =>
    obtain ⟨k', v⟩ := p
    by_cases h : k' = k <;> simp [alookup, h, ih]

theorem isNull_bnot_eq : (fun (v : Value) => !v.isNull) = (fun v => decide (v ≠ Value.null)) := by
  funext v
  cases v <;> simp [Value.isNull]

theorem filter_comm (p q : α → Bool) (l : List α) :
    (l.filter p).filter q = (l.filter q).filter p := by
  simp [List.filter_filter, Bool.and_comm]

theorem mem_nubFO (w : Value) (l : List Value) : w ∈ nubFO l ↔ w ∈ l := by
  induction l using nubFO.induct with
  | case1 => simp [nubFO]
  | case2 v t ih =>
    rw [nubFO]
    simp only [List.mem_cons, ih, List.mem_filter, decide_eq_true_eq]
    constructor
    · rintro (rfl | h)
      · exact Or.inl rfl
      · exact Or.inr h.1
    · intro h
      by_cases hv : w = v
      · exact Or.inl hv
      · rcases h with rfl | ht
        · exact Or.inl rfl
        · exact Or.inr ⟨ht, hv⟩

theorem nubFO_nodup : ∀ (l : List Value), (nubFO l).Nodup := by
  intro l
  induction l using nubFO.induct with
  | case1 => simp [nubFO]
  | case2 v t ih =>
    rw [nubFO]
    refine List.nodup_cons.mpr ⟨?_, ih⟩
    intro hmem
    rw [mem_nubFO] at hmem
    simp only [List.mem_filter, decide_eq_true_eq] at hmem
    exact hmem.2 rfl

theorem nubFO_length_null : ∀ (l : List Value),
    (nubFO l).length =
      (nubFO (l.filter (fun v => !v.isNull))).length +
        (if Value.null ∈ l then 1 else 0) := by
  intro l
  rw [isNull_bnot_eq]
  induction l using nubFO.induct with
  | case1 => simp [nubFO]
  | case2 v t ih =>
    by_cases hv : v = Value.null
    · subst hv
      have hf : (Value.null :: t).filter (fun w => decide (w ≠ Value.null)) =
          t.filter (fun w => decide (w ≠ Value.null)) := by
        rw [List.filter_cons]
        simp
      have hmem : Value.null ∈ Value.null :: t := List.mem_cons_self _ _
      rw [nubFO, hf, if_pos hmem]
      simp
    · have hf : (v :: t).filter (fun w => decide (w ≠ Value.null)) =
          v :: t.filter (fun w => decide (w ≠ Value.null)) := by
        rw [List.filter_cons]
        simp [hv]
      rw [nubFO, hf, nubFO]
      rw [filter_comm (fun w => decide (w ≠ Value.null)) (fun w => decide (w ≠ v)) t]
      simp only [List.length_cons]
      rw [ih]
      have hif2 : (if Value.null ∈ t.filter (fun w => decide (w ≠ v)) then 1 else 0) =
          (if Value.null ∈ t then 1 else 0) := by
        have hiff : Value.null ∈ t.filter (fun w => decide (w ≠ v)) ↔ Value.null ∈ t := by
          simp [List.mem_filter, Ne.symm hv]
        by_cases h : Value.null ∈ t
        · rw [if_pos (hiff.mpr h), if_pos h]
        · rw [if_neg (fun hh => h (hiff.mp hh)), if_neg h]
      have hif1 : (if Value.null ∈ v :: t then 1 else 0) =
          (if Value.null ∈ t then 1 else 0) := by
        have hiff : Value.null ∈ v :: t ↔ Value.null ∈ t := by
          simp [List.mem_cons, Ne.symm hv, eq_comm]
        by_cases h : Value.null ∈ t
        · rw [if_pos (hiff.mpr h), if_pos h]
        · rw [if_neg (fun hh => h (hiff.mp hh)), if_neg h]
      rw [hif2, hif1]
      omega

theorem nubFO_sum_counts : ∀ (l : List Value),
    ((nubFO l).map (fun k => (l.filter (fun w => w = k)).length)).sum = l.length := by
  intro l
  induction l using nubFO.induct with
  | case1 => simp [nubFO]
  | case2 v t ih =>
    rw [nubFO]
    simp only [List.map_cons, List.sum_cons]
    have htail : ((nubFO (t.filter (fun w => decide (w ≠ v)))).map
        (fun k => ((v :: t).filter (fun w => w = k)).length)).sum =
        ((nubFO (t.filter (fun w => decide (w ≠ v)))).map
          (fun k => ((t.filter (fun w => decide (w ≠ v))).filter (fun w => w = k)).length)).sum := by
      apply congrArg
      apply List.map_congr_left
      intro k hk
      rw [mem_nubFO] at hk
      simp only [List.mem_filter, decide_eq_true_eq] at hk
      have hkv : k ≠ v := hk.2
      rw [List.filter_cons_of_neg (by simp [Ne.symm hkv])]
      apply congrArg
      rw [List.filter_filter]
      apply List.filter_congr
      intro w _
      by_cases hw : w = k
      · subst hw
        simp [hkv]
      · simp [hw]
    rw [htail, ih]
    rw [List.filter_cons_of_pos (by simp)]
    simp only [List.length_cons]
    have hsplit := List.length_eq_length_filter_add (l := t) (fun w => decide (w = v))
    have hnotv : (t.filter (fun w => !decide (w = v))).length =
        (t.filter (fun w => decide (w ≠ v))).length := by
      apply congrArg
      apply List.filter_congr
      intro w _
      simp
    omega

theorem firstOccAux_eq_nubFO (l : List Value) : ∀ (seen : List Value),
    firstOccAux l seen = nubFO (l.filter (fun v => decide (v ∉ seen))) := by
  induction l with
  | nil =>
    intro seen
    simp [firstOccAux, nubFO]
  | cons v t ih =>
    intro seen
    by_cases hv : v ∈ seen
    · rw [firstOccAux, if_pos hv, List.filter_cons_of_neg (by simp [hv])]
      exact ih seen
    · rw [firstOccAux, if_neg hv, List.filter_cons_of_pos (by simp [hv]), nubFO, ih (v :: seen)]
      congr 1
      rw [List.filter_filter]
      apply congrArg
      apply List.filter_congr
      intro w hw
      by_cases hwv : w = v
      · subst hwv
        simp
      · simp [hwv]

theorem firstOcc_eq_nubFO (l : List Value) : firstOcc l = nubFO l := by
  rw [firstOcc, firstOccAux_eq_nubFO]
  congr 1
  apply List.filter_eq_self.mpr
  intro a ha
  simp

theorem mem_firstOcc (w : Value) (l : List Value) : w ∈ firstOcc l ↔ w ∈ l := by
  rw [firstOcc_eq_nubFO]
  exact mem_nubFO w l

theorem firstOcc_nodup (l : List Value) : (firstOcc l).Nodup := by
  rw [firstOcc_eq_nubFO]
  exact nubFO_nodup l

theorem firstOcc_length_null (l : List Value) :
    (firstOcc l).length =
      (firstOcc (l.filter (fun v => !v.isNull))).length +
        (if Value.null ∈ l then 1 else 0) := by
  rw [firstOcc_eq_nubFO, firstOcc_eq_nubFO]
  exact nubFO_length_null l

theorem firstOcc_sum_counts (l : List Value) :
    ((firstOcc l).map (fun k => (l.filter (fun w => w = k)).length)).sum = l.length := by
  rw [firstOcc_eq_nubFO]
  exact nubFO_sum_counts l

/-!
Helper lemmas about the telemetry collector.
-/

theorem log_tool_call_max (t : AgentTelemetry) (c : ToolCall) :
    (t.log_tool_call c).max_history = t.max_history := rfl

theorem log_tool_call_toolCalls (t : AgentTelemetry) (c : ToolCall)
    (h : t.tool_calls.length ≤ t.max_history) :
    (t.log_tool_call c).tool_calls =
      (t.tool_calls ++ [c]).drop (t.tool_calls.length + 1 - t.max_history) := by
  by_cases hgt : t.tool_calls.length + 1 > t.max_history
  · have h1 : t.tool_calls.length + 1 - t.max_history = 1 := by omega
    simp [AgentTelemetry.log_tool_call, h1, hgt, List.drop_one]
  · have h0 : t.tool_calls.length + 1 - t.max_history = 0 := by omega
    simp [AgentTelemetry.log_tool_call, h0, hgt]

theorem log_tool_call_length (t : AgentTelemetry) (c : ToolCall)
    (h : t.tool_calls.length ≤ t.max_history) :
    (t.log_tool_call c).tool_calls.length =
      min (t.tool_calls.length + 1) t.max_history := by
  rw [log_tool_call_toolCalls t c h]
  simp only [List.length_drop, List.length_append, List.length_cons, List.length_nil]
  omega

theorem foldl_log_tool_call (cs : List ToolCall) : ∀ (t : AgentTelemetry),
    t.tool_calls.length ≤ t.max_history →
    (cs.foldl AgentTelemetry.log_tool_call t).tool_calls =
      (t.tool_calls ++ cs).drop (t.tool_calls.length + cs.length - t.max_history) ∧
    (cs.foldl AgentTelemetry.log_tool_call t).max_history = t.max_history := by
  induction cs with
  | nil =>
    intro t h
    have h0 : t.tool_calls.length + List.length ([] : List ToolCall) - t.max_history = 0 := by
      simp only [List.length_nil]
      omega
    rw [List.foldl_nil, h0]
    simp
  | cons c cs ih =>
    intro t h
    have hlog := log_tool_call_toolCalls t c h
    have hmax : (t.log_tool_call c).max_history = t.max_history := rfl
    have hlen : (t.log_tool_call c).tool_calls.length ≤ (t.log_tool_call c).max_history := by
      rw [hlog, hmax]
      simp only [List.length_drop, List.length_append, List.length_cons, List.length_nil]
      omega
    obtain ⟨ih1, ih2⟩ := ih (t.log_tool_call c) hlen
    rw [List.foldl_cons]
    refine ⟨?_, by rw [ih2, hmax]⟩
    rw [ih1, hlog, hmax]
    have hD : t.tool_calls.length + 1 - t.max_history ≤ (t.tool_calls ++ [c]).length := by
      simp only [List.length_append, List.length_cons, List.length_nil]
      omega
    rw [← List.drop_append_of_le_length hD]
    rw [List.drop_drop]
    have hassoc : (t.tool_calls ++ [c]) ++ cs = t.tool_calls ++ c :: cs := by
      rw [List.append_assoc]
      rfl
    rw [hassoc]
    congr 1
    simp only [List.length_drop, List.length_append, List.length_cons, List.length_nil]
    omega

theorem applyOp_max (t : AgentTelemetry) (op : TelemetryOp) :
    (t.applyOp op).max_history = t.max_history := by
  cases op <;> rfl

theorem applyOp_length_le (t : AgentTelemetry) (op : TelemetryOp)
    (h : t.tool_calls.length ≤ t.max_history) :
    (t.applyOp op).tool_calls.length ≤ t.max_history := by
  cases op with
  | record c =>
    have := log_tool_call_length t c h
    simp only [AgentTelemetry.applyOp]
    omega
  | clear =>
    simp [AgentTelemetry.applyOp, AgentTelemetry.clear]

theorem foldl_applyOp_invariant (ops : List TelemetryOp) : ∀ (t : AgentTelemetry),
    t.tool_calls.length ≤ t.max_history →
    (ops.foldl AgentTelemetry.applyOp t).tool_calls.length ≤ t.max_history ∧
    (ops.foldl AgentTelemetry.applyOp t).max_history = t.max_history := by
  induction ops with
  | nil => intro t h; exact ⟨h, rfl⟩
  | cons op ops ih =>
    intro t h
    rw [List.foldl_cons]
    have h1 : (t.applyOp op).tool_calls.length ≤ (t.applyOp op).max_history := by
      rw [applyOp_max]
      exact applyOp_length_le t op h
    obtain ⟨ih1, ih2⟩ := ih (t.applyOp op) h1
    rw [applyOp_max] at ih1 ih2
    exact ⟨ih1, ih2⟩

theorem foldl_successStep_alookup (cs : List ToolCall) :
    ∀ (acc : List (String × (ℕ × ℕ))) (tool : String),
    alookup (cs.foldl successStep acc) tool =
      if alookup acc tool = none ∧
          (cs.filter (fun c => decide (c.tool_name = tool))).length = 0 then none
      else
        some (((alookup acc tool).getD (0, 0)).1 +
                (cs.filter (fun c => decide (c.tool_name = tool) && c.success)).length,
              ((alookup acc tool).getD (0, 0)).2 +
                (cs.filter (fun c => decide (c.tool_name = tool))).length) := by
  induction cs with
  | nil =>
    intro acc tool
    rw [List.foldl_nil]
    cases hacc : alookup acc tool with
    | none => simp [hacc]
    | some st => simp [hacc]
  | cons c cs ih =>
    intro acc tool
    rw [List.foldl_cons, ih]
    by_cases htool : c.tool_name = tool
    · have hft : (c :: cs).filter (fun x => decide (x.tool_name = tool)) =
          c :: cs.filter (fun x => decide (x.tool_name = tool)) := by
        rw [List.filter_cons_of_pos]
        simp [htool]
      cases hs : c.success with
      | true =>
        have hfs : (c :: cs).filter (fun x => decide (x.tool_name = tool) && x.success) =
            c :: cs.filter (fun x => decide (x.tool_name = tool) && x.success) := by
          rw [List.filter_cons_of_pos]
          simp [htool, hs]
        rcases hacc : alookup acc tool with _ | ⟨s, t⟩
        · have hself : alookup (successStep acc c) tool = some (0 + 1, 0 + 1) := by
            simp only [successStep]
            rw [htool, hacc]
            simp [hs, alookup_pyUpdate_self]
          rw [hself, hft, hfs]
          rw [if_neg (by simp), if_neg (by simp)]
          simp only [Option.getD_some, Option.getD_none, Option.some.injEq, Prod.mk.injEq,
            List.length_cons]
          constructor <;> first | omega | trivial
        · have hself : alookup (successStep acc c) tool = some (s + 1, t + 1) := by
            simp only [successStep]
            rw [htool, hacc]
            simp [hs, alookup_pyUpdate_self]
          rw [hself, hft, hfs]
          rw [if_neg (by simp), if_neg (by simp)]
          simp only [Option.getD_some, Option.some.injEq, Prod.mk.injEq, List.length_cons]
          constructor <;> first | omega | trivial
      | false =>
        have hfs : (c :: cs).filter (fun x => decide (x.tool_name = tool) && x.success) =
            cs.filter (fun x => decide (x.tool_name = tool) && x.success) := by
          rw [List.filter_cons_of_neg]
          simp [hs]
        rcases hacc : alookup acc tool with _ | ⟨s, t⟩
        · have hself : alookup (successStep acc c) tool = some (0 + 0, 0 + 1) := by
            simp only [successStep]
            rw [htool, hacc]
            simp [hs, alookup_pyUpdate_self]
          rw [hself, hft, hfs]
          rw [if_neg (by simp), if_neg (by simp)]
          simp only [Option.getD_some, Option.getD_none, Option.some.injEq, Prod.mk.injEq,
            List.length_cons]
          constructor <;> first | omega | trivial
        · have hself : alookup (successStep acc c) tool = some (s + 0, t + 1) := by
            simp only [successStep]
            rw [htool, hacc]
            simp [hs, alookup_pyUpdate_self]
          rw [hself, hft, hfs]
          rw [if_neg (by simp), if_neg (by simp)]
          simp only [Option.getD_some, Option.some.injEq, Prod.mk.injEq, List.length_cons]
          constructor <;> first | omega | trivial
    · have hne : alookup (successStep acc c) tool = alookup acc tool := by
        rw [successStep]
        exact alookup_pyUpdate_ne _ _ _ _ (fun hh => htool hh.symm)
      have hft : (c :: cs).filter (fun x => decide (x.tool_name = tool)) =
          cs.filter (fun x => decide (x.tool_name = tool)) := by
        rw [List.filter_cons_of_neg]
        simp [htool]
      have hfs : (c :: cs).filter (fun x => decide (x.tool_name = tool) && x.success) =
          cs.filter (fun x => decide (x.tool_name = tool) && x.success) := by
        rw [List.filter_cons_of_neg]
        simp [htool]
      rw [hne, hft, hfs]

theorem successStats_alookup (calls : List ToolCall) (tool : String) :
    alookup (successStats calls) tool =
      (if (calls.filter (fun c => decide (c.tool_name = tool))).length = 0 then none
       else
         some ((calls.filter (fun c => decide (c.tool_name = tool) && c.success)).length,
               (calls.filter (fun c => decide (c.tool_name = tool))).length)) := by
  rw [successStats, foldl_successStep_alookup]
  by_cases h : (calls.filter (fun c => decide (c.tool_name = tool))).length = 0
  · rw [if_pos ⟨rfl, h⟩, if_pos h]
  · rw [if_neg (fun hh => h hh.2), if_neg h]
    simp [alookup]

theorem AgentTelemetry.extEq (a b : AgentTelemetry)
    (h1 : a.max_history = b.max_history) (h2 : a.tool_calls = b.tool_calls) : a = b := by
  cases a
  cases b
  simp_all

theorem mem_get_call_history (t : AgentTelemetry) (n : Option ℕ) (x : ToolCall)
    (h : x ∈ t.get_call_history n) : x ∈ t.tool_calls := by
  cases n with
  | none =>
    simp only [AgentTelemetry.get_call_history] at h
    exact List.mem_reverse.mp h
  | some k =>
    simp only [AgentTelemetry.get_call_history, pyTakeLast] at h
    by_cases hk : k = 0
    · rw [if_pos hk] at h
      exact List.mem_reverse.mp h
    · rw [if_neg hk] at h
      exact List.mem_of_mem_drop (List.mem_reverse.mp h)

theorem mem_get_latest_call (t : AgentTelemetry) (x : ToolCall)
    (h : t.get_latest_call = some x) : x ∈ t.tool_calls := by
  simp only [AgentTelemetry.get_latest_call] at h
  obtain ⟨ys, hys⟩ := List.getLast?_eq_some_iff.mp h
  rw [hys]
  simp

theorem filter_nonNull_cons_num (q : ℚ) (t : List Value) :
    (Value.num q :: t).filter (fun v => !v.isNull) =
      Value.num q :: t.filter (fun v => !v.isNull) := rfl

theorem filter_nonNull_cons_str (s : String) (t : List Value) :
    (Value.str s :: t).filter (fun v => !v.isNull) =
      Value.str s :: t.filter (fun v => !v.isNull) := rfl

theorem filter_nonNull_cons_null (t : List Value) :
    (Value.null :: t).filter (fun v => !v.isNull) = t.filter (fun v => !v.isNull) := rfl

theorem numsOf_cons_num (q : ℚ) (t : List Value) :
    numsOf (Value.num q :: t) = q :: numsOf t := rfl

theorem numsOf_cons_str (s : String) (t : List Value) :
    numsOf (Value.str s :: t) = numsOf t := rfl

theorem numsOf_cons_null (t : List Value) : numsOf (Value.null :: t) = numsOf t := rfl

theorem numsOf_filter_nonNull (vs : List Value) :
    numsOf (vs.filter (fun v => !v.isNull)) = numsOf vs := by
  induction vs with
  | nil => rfl
  | cons v t ih =>
    cases v with
    | num q => rw [filter_nonNull_cons_num, numsOf_cons_num, numsOf_cons_num, ih]
    | str s => rw [filter_nonNull_cons_str, numsOf_cons_str, numsOf_cons_str, ih]
    | null => rw [filter_nonNull_cons_null, numsOf_cons_null, ih]

theorem length_filter_nonNull_eq_numsOf (vs : List Value) (h : numericList vs = true) :
    ((vs.filter (fun v => !v.isNull)).length = (numsOf vs).length) := by
  induction vs with
  | nil => rfl
  | cons v t ih =>
    rw [numericList, List.all_cons, Bool.and_eq_true] at h
    have ht : numericList t = true := by
      rw [numericList]
      exact h.2
    cases v with
    | num q =>
      rw [filter_nonNull_cons_num, numsOf_cons_num, List.length_cons, List.length_cons, ih ht]
    | str s =>
      exact absurd h.1 (by simp [Value.isNum, Value.isNull])
    | null =>
      rw [filter_nonNull_cons_null, numsOf_cons_null, ih ht]

theorem numericList_false_of_witness (vs : List Value) (w : Value) (hw : w ∈ vs)
    (hnum : w.isNum = false) (hnull : w.isNull = false) : numericList vs = false := by
  rw [numericList, List.all_eq_false]
  exact ⟨w, hw, by simp [hnum, hnull]⟩

theorem alookup_map_rate (l : List (String × (ℕ × ℕ))) (k : String) :
    alookup (l.map (fun p => (p.1, if p.2.2 > 0 then (p.2.1 : ℚ) / (p.2.2 : ℚ) else 0))) k =
      (alookup l k).map (fun st => if st.2 > 0 then (st.1 : ℚ) / (st.2 : ℚ) else 0) := by
  induction l with
  | nil => rfl
  | cons p t ih =>
    obtain ⟨k', v⟩ := p
    by_cases h : k' = k <;> simp [alookup, h, ih]

/-- C2: for every collector built with capacity `max_history` and every
sequence of record/clear operations from a fresh collector, the retained
length stays at most `max_history`; `log_tool_call` appends the new record
and, exactly when the insert would exceed capacity, drops the single
oldest retained record (the `drop` index is 1 precisely when the history
was full, 0 otherwise — strict FIFO); and after a fresh collector receives
`max_history + N` records with `N ≥ 1`, its entire state equals capacity
`max_history` together with exactly the last `max_history` records — the
`N` oldest are gone from the state and hence from every query derived from
it (`get_latest_call`, `get_call_history`, `get_tool_call_counts`,
`get_tool_success_rate`, `get_average_execution_time`, `get_summary` are
all functions of that state); in particular every record returned by
`get_call_history` or `get_latest_call` lies among the retained suffix. -/
theorem telemetry_capacity_fifo (m N : ℕ) (ops : List TelemetryOp) (cs : List ToolCall)
    (hlen : cs.length = m + N) (hN : 0 < N) :
    ((ops.foldl AgentTelemetry.applyOp (AgentTelemetry.mk0 m)).tool_calls.length ≤ m)
    ∧ (∀ (t : AgentTelemetry) (c : ToolCall), t.tool_calls.length ≤ t.max_history →
        (t.log_tool_call c).tool_calls =
          (t.tool_calls ++ [c]).drop (t.tool_calls.length + 1 - t.max_history))
    ∧ (cs.foldl AgentTelemetry.log_tool_call (AgentTelemetry.mk0 m) =
        { max_history := m, tool_calls := cs.drop N })
    ∧ ((cs.drop N).length = m)
    ∧ (∀ (n : Option ℕ) (x : ToolCall),
        x ∈ (cs.foldl AgentTelemetry.log_tool_call (AgentTelemetry.mk0 m)).get_call_history n →
        x ∈ cs.drop N)
    ∧ (∀ (x : ToolCall),
        (cs.foldl AgentTelemetry.log_tool_call (AgentTelemetry.mk0 m)).get_latest_call = some x →
        x ∈ cs.drop N) := by
  have hmk : (AgentTelemetry.mk0 m).tool_calls.length ≤ (AgentTelemetry.mk0 m).max_history := by
    simp [AgentTelemetry.mk0]
  have hfold := foldl_log_tool_call cs (AgentTelemetry.mk0 m) hmk
  have htc : (cs.foldl AgentTelemetry.log_tool_call (AgentTelemetry.mk0 m)).tool_calls =
      cs.drop N := by
    rw [hfold.1]
    simp only [AgentTelemetry.mk0, List.nil_append, List.length_nil]
    congr 1
    omega
  have hstate : cs.foldl AgentTelemetry.log_tool_call (AgentTelemetry.mk0 m) =
      { max_history := m, tool_calls := cs.drop N } := by
    apply AgentTelemetry.extEq
    · rw [hfold.2]
      rfl
    · exact htc
  refine ⟨(foldl_applyOp_invariant ops (AgentTelemetry.mk0 m) hmk).1,
    (fun t c h => log_tool_call_toolCalls t c h), hstate, ?_, ?_, ?_⟩
  · rw [List.length_drop]
    omega
  · intro n x hx
    have hmem := mem_get_call_history _ n x hx
    rwa [htc] at hmem
  · intro x hx
    have hmem := mem_get_latest_call _ x hx
    rwa [htc] at hmem

theorem telemetry_capacity_fifo_witness :
    ([⟨"t0", "tool0", "i", none, 0, true, none⟩,
      ⟨"t1", "tool1", "i", none, 0, true, none⟩,
      ⟨"t2", "tool2", "i", none, 0, true, none⟩] : List ToolCall).foldl
        AgentTelemetry.log_tool_call (AgentTelemetry.mk0 2) =
      { max_history := 2,
        tool_calls := [⟨"t1", "tool1", "i", none, 0, true, none⟩,
                       ⟨"t2", "tool2", "i", none, 0, true, none⟩] } :=
  (telemetry_capacity_fifo 2 1 []
    [⟨"t0", "tool0", "i", none, 0, true, none⟩,
     ⟨"t1", "tool1", "i", none, 0, true, none⟩,
     ⟨"t2", "tool2", "i", none, 0, true, none⟩] rfl (by decide)).2.2.1

/-- C6: the instrumentation adapter is observationally transparent: its
result component is always exactly the wrapped callable's outcome; on a
normal return it records precisely one successful `ToolCall` (input and
output snapshots are the serializations truncated to 200 characters) and
returns the result unmodified; on an exception it records precisely one
failed `ToolCall` carrying the error's message (output `None`) and
re-raises that same error. -/
theorem instrument_tool_transparent {α β : Type} (f : α → Except String β)
    (tool_name : String) (serIn : α → String) (serOut : β → String)
    (t : AgentTelemetry) (x : α) (ts : String) (dur : ℚ) :
    ((instrument_tool f tool_name serIn serOut t x ts dur).1 = f x)
    ∧ (∀ r, f x = Except.ok r →
        instrument_tool f tool_name serIn serOut t x ts dur =
          (Except.ok r,
            t.log_tool_call
              { timestamp := ts, tool_name := tool_name,
                tool_input := (serIn x).take 200,
                tool_output := some ((serOut r).take 200),
                execution_time_ms := dur, success := true, error_message := none }))
    ∧ (∀ e, f x = Except.error e →
        instrument_tool f tool_name serIn serOut t x ts dur =
          (Except.error e,
            t.log_tool_call
              { timestamp := ts, tool_name := tool_name,
                tool_input := (serIn x).take 200,
                tool_output := none,
                execution_time_ms := dur, success := false, error_message := some e })) := by
  refine ⟨?_, ?_, ?_⟩
  · cases hf : f x with
    | ok r => simp [instrument_tool, hf]
    | error e => simp [instrument_tool, hf]
  · intro r hr
    simp [instrument_tool, hr]
  · intro e he
    simp [instrument_tool, he]

theorem instrument_tool_transparent_witness :
    instrument_tool (fun n : ℕ => if n = 0 then Except.error "boom" else Except.ok (n + 1))
        "agg" (fun n => toString n) (fun n => toString n)
        (AgentTelemetry.mk0 3) 0 "ts" 5 =
      (Except.error "boom",
        (AgentTelemetry.mk0 3).log_tool_call
          { timestamp := "ts", tool_name := "agg",
            tool_input := (toString (0 : ℕ)).take 200,
            tool_output := none,
            execution_time_ms := 5, success := false, error_message := some "boom" })
    ∧ (instrument_tool (fun n : ℕ => if n = 0 then Except.error "boom" else Except.ok (n + 1))
        "agg" (fun n => toString n) (fun n => toString n)
        (AgentTelemetry.mk0 3) 4 "ts" 5).1 = Except.ok 5 :=
  ⟨(instrument_tool_transparent (fun n : ℕ => if n = 0 then Except.error "boom" else Except.ok (n + 1))
      "agg" (fun n => toString n) (fun n => toString n)
      (AgentTelemetry.mk0 3) 0 "ts" 5).2.2 "boom" rfl,
   ((instrument_tool_transparent (fun n : ℕ => if n = 0 then Except.error "boom" else Except.ok (n + 1))
      "agg" (fun n => toString n) (fun n => toString n)
      (AgentTelemetry.mk0 3) 4 "ts" 5).1).trans rfl⟩

/-- C7: `get_tool_success_rate` maps a tool name with at least one retained
call to (number of successful retained calls) / (number of retained calls)
for that tool, and a tool with no retained calls is absent from the
mapping (lookup yields `none`, not a zero rate). -/
theorem success_rate_by_tool_correct (t : AgentTelemetry) (tool : String) :
    ((t.tool_calls.filter (fun c => decide (c.tool_name = tool))).length = 0 →
      alookup t.get_tool_success_rate tool = none)
    ∧ (0 < (t.tool_calls.filter (fun c => decide (c.tool_name = tool))).length →
      alookup t.get_tool_success_rate tool =
        some
          (((t.tool_calls.filter (fun c => decide (c.tool_name = tool) && c.success)).length : ℚ) /
           ((t.tool_calls.filter (fun c => decide (c.tool_name = tool))).length : ℚ))) := by
  have hm : alookup t.get_tool_success_rate tool =
      (alookup (successStats t.tool_calls) tool).map
        (fun st => if st.2 > 0 then (st.1 : ℚ) / (st.2 : ℚ) else 0) := by
    rw [AgentTelemetry.get_tool_success_rate]
    exact alookup_map_rate _ _
  constructor
  · intro h0
    rw [hm, successStats_alookup, if_pos h0]
    rfl
  · intro hpos
    rw [hm, successStats_alookup, if_neg (by omega)]
    simp only [Option.map_some']
    rw [if_pos hpos]

theorem success_rate_by_tool_correct_witness :
    alookup (AgentTelemetry.get_tool_success_rate
        ⟨100, [⟨"t0", "a", "i", none, 0, true, none⟩,
               ⟨"t1", "a", "i", none, 0, false, some "e"⟩,
               ⟨"t2", "b", "i", none, 0, true, none⟩]⟩) "a" = some ((1 : ℚ) / 2)
    ∧ alookup (AgentTelemetry.get_tool_success_rate
        ⟨100, [⟨"t0", "a", "i", none, 0, true, none⟩,
               ⟨"t1", "a", "i", none, 0, false, some "e"⟩,
               ⟨"t2", "b", "i", none, 0, true, none⟩]⟩) "z" = none := by
  constructor
  · have h := (success_rate_by_tool_correct
        ⟨100, [⟨"t0", "a", "i", none, 0, true, none⟩,
               ⟨"t1", "a", "i", none, 0, false, some "e"⟩,
               ⟨"t2", "b", "i", none, 0, true, none⟩]⟩ "a").2 (by decide)
    rw [h]
    norm_num [List.filter, show decide ("b" = "a") = false from rfl]
  · exact (success_rate_by_tool_correct
        ⟨100, [⟨"t0", "a", "i", none, 0, true, none⟩,
               ⟨"t1", "a", "i", none, 0, false, some "e"⟩,
               ⟨"t2", "b", "i", none, 0, true, none⟩]⟩ "z").1 (by decide)

/-- C8: whenever the retained history is non-empty and `k ≥ 1`, the first
element of `get_call_history (some k)` is exactly `get_latest_call`; more
generally `get_call_history (some k)` is the first `k` elements of the
full newest-first history, and the full history is the reverse of the
retained (oldest-first) state — and, the model being pure, no query
mutates the collector. -/
theorem history_latest_round_trip (t : AgentTelemetry) (k : ℕ)
    (hk : 1 ≤ k) (hne : t.tool_calls ≠ []) :
    (t.get_call_history (some k)).head? = t.get_latest_call
    ∧ t.get_call_history (some k) = (t.get_call_history none).take k
    ∧ t.get_call_history none = t.tool_calls.reverse := by
  have hlen : 0 < t.tool_calls.length := List.length_pos.mpr hne
  have hpy : pyTakeLast t.tool_calls k = t.tool_calls.drop (t.tool_calls.length - k) := by
    rw [pyTakeLast, if_neg (by omega)]
  refine ⟨?_, ?_, rfl⟩
  · simp only [AgentTelemetry.get_call_history, hpy, AgentTelemetry.get_latest_call]
    rw [List.head?_reverse, List.getLast?_drop, if_neg (by omega)]
  · simp only [AgentTelemetry.get_call_history, hpy]
    rw [List.take_reverse]

theorem history_latest_round_trip_witness :
    (AgentTelemetry.get_call_history
        ⟨100, [⟨"t0", "a", "i", none, 0, true, none⟩,
               ⟨"t1", "b", "i", none, 0, true, none⟩]⟩ (some 1)).head? =
      AgentTelemetry.get_latest_call
        ⟨100, [⟨"t0", "a", "i", none, 0, true, none⟩,
               ⟨"t1", "b", "i", none, 0, true, none⟩]⟩ :=
  (history_latest_round_trip
    ⟨100, [⟨"t0", "a", "i", none, 0, true, none⟩,
           ⟨"t1", "b", "i", none, 0, true, none⟩]⟩ 1 (by decide) (by decide)).1

theorem numsOf_nil : numsOf [] = [] := rfl

namespace DataAggregator

/-- C4: for every dataset and numeric column, `sum_column` returns exactly
the sum of the column's non-null values (nulls are excluded, not treated
as zero), `count_column` returns the number of non-null values, and
whenever that count is positive `average_column` returns the sum divided
by the count. -/
theorem sum_average_count_relation (df : DataFrame) (c : String)
    (hc : c ∈ df.cols) (hnum : numericList (df.series c) = true) :
    sum_column df c = Except.ok (numsOf ((df.series c).filter (fun v => !v.isNull))).sum
    ∧ count_column df c = Except.ok ((df.series c).filter (fun v => !v.isNull)).length
    ∧ (0 < ((df.series c).filter (fun v => !v.isNull)).length →
        average_column df c = Except.ok
          ((numsOf ((df.series c).filter (fun v => !v.isNull))).sum /
            (((df.series c).filter (fun v => !v.isNull)).length : ℚ))) := by
  have hmem : ¬ c ∉ df.cols := not_not_intro hc
  refine ⟨?_, ?_, ?_⟩
  · rw [sum_column, if_neg hmem, if_neg (by simp [hnum])]
    rw [numsOf_filter_nonNull]
  · rw [count_column, if_neg hmem]
  · intro hpos
    rw [average_column, if_neg hmem, if_neg (by simp [hnum])]
    rw [numsOf_filter_nonNull, length_filter_nonNull_eq_numsOf _ hnum]

theorem sum_average_count_relation_witness :
    sum_column ⟨["v"], [[Value.num 1], [Value.null], [Value.num 2]]⟩ "v" = Except.ok 3
    ∧ count_column ⟨["v"], [[Value.num 1], [Value.null], [Value.num 2]]⟩ "v" = Except.ok 2
    ∧ average_column ⟨["v"], [[Value.num 1], [Value.null], [Value.num 2]]⟩ "v" =
        Except.ok (3 / 2) := by
  have h := sum_average_count_relation ⟨["v"], [[Value.num 1], [Value.null], [Value.num 2]]⟩
    "v" (by decide) (by decide)
  refine ⟨?_, ?_, ?_⟩
  · rw [h.1]
    first
    | rfl
    | (congr 1; norm_num [DataFrame.series, DataFrame.colIdx, List.filter, List.findIdx,
        List.findIdx.go, Value.isNull, numsOf_cons_num, numsOf_nil])
  · rw [h.2.1]
    first
    | rfl
    | (congr 1; norm_num [DataFrame.series, DataFrame.colIdx, List.filter, List.findIdx,
        List.findIdx.go, Value.isNull])
  · rw [h.2.2 (by decide)]
    first
    | rfl
    | (congr 1; norm_num [DataFrame.series, DataFrame.colIdx, List.filter, List.findIdx,
        List.findIdx.go, Value.isNull, numsOf_cons_num, numsOf_nil])

/-- C5: with an existing filter column, `filter_and_aggregate` on a filter
value matching zero rows always fails with the empty-filter `ValueError`
(never returning a numeric result), and on a filter matching at least one
row with an aggregation keyword outside the six supported ones it fails
with the unknown-aggregation `ValueError`. -/
theorem filter_and_aggregate_empty_or_unknown (df : DataFrame) (fc : String) (fv : Value)
    (ac af : String) (hfc : fc ∈ df.cols) :
    ((filterRows df fc fv).rows = [] →
      filter_and_aggregate df fc fv ac af =
        Except.error (AggError.valueError
          ("No rows found where " ++ fc ++ " == " ++ fv.render)))
    ∧ ((filterRows df fc fv).rows ≠ [] →
       af ∉ (["sum", "avg", "min", "max", "median", "count"] : List String) →
       filter_and_aggregate df fc fv ac af =
         Except.error (AggError.valueError ("Unknown aggregation function: " ++ af))) := by
  constructor
  · intro h
    simp only [filter_and_aggregate]
    rw [if_neg (not_not_intro hfc), h]
    simp
  · intro hne haf
    simp only [List.mem_cons, List.not_mem_nil, or_false, not_or] at haf
    obtain ⟨h1, h2, h3, h4, h5, h6⟩ := haf
    simp only [filter_and_aggregate]
    rw [if_neg (not_not_intro hfc)]
    rw [if_neg (by simp [hne])]
    rw [if_neg h1, if_neg h2, if_neg h3, if_neg h4, if_neg h5, if_neg h6]

theorem filter_and_aggregate_empty_or_unknown_witness :
    filter_and_aggregate ⟨["a"], [[Value.str "x"]]⟩ "a" (Value.str "zzz") "a" "sum" =
      Except.error (AggError.valueError "No rows found where a == zzz")
    ∧ filter_and_aggregate ⟨["a"], [[Value.str "x"]]⟩ "a" (Value.str "x") "a" "total" =
      Except.error (AggError.valueError "Unknown aggregation function: total") := by
  constructor
  · have h := (filter_and_aggregate_empty_or_unknown ⟨["a"], [[Value.str "x"]]⟩
      "a" (Value.str "zzz") "a" "sum" (by decide)).1 (by decide)
    rw [h]
    decide
  · have h := (filter_and_aggregate_empty_or_unknown ⟨["a"], [[Value.str "x"]]⟩
      "a" (Value.str "x") "a" "total" (by decide)).2 (by decide) (by decide)
    rw [h]
    decide

/-- C9: with an existing filter column, when the filter matches zero rows
the empty-filter check fires before the aggregation keyword or aggregation
column is examined: the result is the empty-filter `ValueError` for every
choice of aggregation column and keyword (absent, non-numeric or
unsupported included), and in particular the result does not depend on
them at all. -/
theorem empty_filter_checked_first (df : DataFrame) (fc : String) (fv : Value)
    (ac af ac2 af2 : String) (hfc : fc ∈ df.cols)
    (hempty : (filterRows df fc fv).rows = []) :
    filter_and_aggregate df fc fv ac af =
      Except.error (AggError.valueError
        ("No rows found where " ++ fc ++ " == " ++ fv.render))
    ∧ filter_and_aggregate df fc fv ac af = filter_and_aggregate df fc fv ac2 af2 := by
  have key : ∀ (b1 b2 : String), filter_and_aggregate df fc fv b1 b2 =
      Except.error (AggError.valueError
        ("No rows found where " ++ fc ++ " == " ++ fv.render)) := by
    intro b1 b2
    simp only [filter_and_aggregate]
    rw [if_neg (not_not_intro hfc), hempty]
    simp
  exact ⟨key ac af, (key ac af).trans (key ac2 af2).symm⟩

theorem empty_filter_checked_first_witness :
    filter_and_aggregate ⟨["a"], [[Value.str "x"]]⟩ "a" (Value.str "zzz") "nosuchcol" "hmm" =
      Except.error (AggError.valueError "No rows found where a == zzz")
    ∧ Except.error (AggError.valueError "No rows found where a == zzz") ≠
        (Except.error (AggError.valueError "Unknown aggregation function: hmm") :
          Except AggError ℚ)
    ∧ Except.error (AggError.valueError "No rows found where a == zzz") ≠
        (Except.error (columnNotFound "nosuchcol") : Except AggError ℚ) := by
  refine ⟨?_, by decide, by decide⟩
  have h := (empty_filter_checked_first ⟨["a"], [[Value.str "x"]]⟩ "a" (Value.str "zzz")
    "nosuchcol" "hmm" "y" "z" (by decide) (by decide)).1
  rw [h]
  decide

end DataAggregator

namespace DataAggregator

theorem filterRows_cols (df : DataFrame) (fc : String) (fv : Value) :
    (filterRows df fc fv).cols = df.cols := rfl

/-- C1 counterexample: on the dataset with single column `a`, calling
`filter_and_aggregate` with the absent filter column `b` fails with the
pandas `KeyError` raised by the bare `dataframe[filter_column]` lookup —
not with one of the engine's `ValueError` validation errors — so the
claim that every operation referencing an absent column fails with a
validation error is false for the filter column of `filter_and_aggregate`. -/
theorem column_validation_counterexample :
    filter_and_aggregate ⟨["a"], [[Value.num 1]]⟩ "b" (Value.str "x") "a" "sum" =
      Except.error (AggError.keyError "b")
    ∧ (AggError.keyError "b").isValueError = false :=
  ⟨by decide, rfl⟩

/-- C1 amended: every operation that validates its columns fails with a
`ValueError` naming the missing column (`sum`/`average`/`min`/`max`/
`median`/`count`/`unique_count`/`unique_values`, the group and value
columns of the group-by operations, and the aggregation column of
`filter_and_aggregate` once the filter has matched at least one row and
the keyword is supported); the numeric operations fail with the
`NotNumeric` `ValueError` naming the column whenever it contains a
non-numeric non-null value; but the filter column of
`filter_and_aggregate` is never validated by the engine — its absence
surfaces as a pandas `KeyError` (not a `ValueError`), and the aggregation
column is examined only after the non-empty-filter check. -/
theorem column_validation_amended (df : DataFrame) (c g v fc ac af : String) (fv : Value) :
    (c ∉ df.cols →
      sum_column df c = Except.error (columnNotFound c)
      ∧ average_column df c = Except.error (columnNotFound c)
      ∧ min_column df c = Except.error (columnNotFound c)
      ∧ max_column df c = Except.error (columnNotFound c)
      ∧ median_column df c = Except.error (columnNotFound c)
      ∧ count_column df c = Except.error (columnNotFound c)
      ∧ unique_count df c = Except.error (columnNotFound c)
      ∧ unique_values df c = Except.error (columnNotFound c))
    ∧ (g ∉ df.cols →
      groupby_sum df g v = Except.error (AggError.valueError
        ("Group column " ++ "'" ++ g ++ "'" ++ " not found"))
      ∧ groupby_average df g v = Except.error (AggError.valueError
        ("Group column " ++ "'" ++ g ++ "'" ++ " not found"))
      ∧ groupby_count df g = Except.error (AggError.valueError
        ("Group column " ++ "'" ++ g ++ "'" ++ " not found")))
    ∧ (g ∈ df.cols → v ∉ df.cols →
      groupby_sum df g v = Except.error (AggError.valueError
        ("Value column " ++ "'" ++ v ++ "'" ++ " not found"))
      ∧ groupby_average df g v = Except.error (AggError.valueError
        ("Value column " ++ "'" ++ v ++ "'" ++ " not found")))
    ∧ (c ∈ df.cols → (∃ w ∈ df.series c, w.isNum = false ∧ w.isNull = false) →
      sum_column df c = Except.error (notNumeric c)
      ∧ average_column df c = Except.error (notNumeric c)
      ∧ min_column df c = Except.error (notNumeric c)
      ∧ max_column df c = Except.error (notNumeric c)
      ∧ median_column df c = Except.error (notNumeric c))
    ∧ (g ∈ df.cols → v ∈ df.cols →
      (∃ w ∈ df.series v, w.isNum = false ∧ w.isNull = false) →
      groupby_sum df g v = Except.error (notNumeric v)
      ∧ groupby_average df g v = Except.error (notNumeric v))
    ∧ (fc ∉ df.cols →
      filter_and_aggregate df fc fv ac af = Except.error (AggError.keyError fc)
      ∧ (AggError.keyError fc).isValueError = false)
    ∧ (fc ∈ df.cols → (filterRows df fc fv).rows ≠ [] → ac ∉ df.cols →
      af ∈ (["sum", "avg", "min", "max", "median", "count"] : List String) →
      filter_and_aggregate df fc fv ac af = Except.error (columnNotFound ac))
    ∧ (fc ∈ df.cols → (filterRows df fc fv).rows ≠ [] → ac ∈ df.cols →
      (∃ w ∈ (filterRows df fc fv).series ac, w.isNum = false ∧ w.isNull = false) →
      af ∈ (["sum", "avg", "min", "max", "median"] : List String) →
      filter_and_aggregate df fc fv ac af = Except.error (notNumeric ac)) := by
  refine ⟨?_, ?_, ?_, ?_, ?_, ?_, ?_, ?_⟩
  · intro h
    exact ⟨by rw [sum_column, if_pos h], by rw [average_column, if_pos h],
      by rw [min_column, if_pos h], by rw [max_column, if_pos h],
      by rw [median_column, if_pos h], by rw [count_column, if_pos h],
      by rw [unique_count, if_pos h], by rw [unique_values, if_pos h]⟩
  · intro h
    exact ⟨by rw [groupby_sum, if_pos h], by rw [groupby_average, if_pos h],
      by rw [groupby_count, if_pos h]⟩
  · intro hg hv
    exact ⟨by rw [groupby_sum, if_neg (not_not_intro hg), if_pos hv],
      by rw [groupby_average, if_neg (not_not_intro hg), if_pos hv]⟩
  · intro hc hex
    obtain ⟨w, hw, h1, h2⟩ := hex
    have hnum : numericList (df.series c) = false :=
      numericList_false_of_witness _ w hw h1 h2
    exact ⟨by rw [sum_column, if_neg (not_not_intro hc), if_pos (by simp [hnum])],
      by rw [average_column, if_neg (not_not_intro hc), if_pos (by simp [hnum])],
      by rw [min_column, if_neg (not_not_intro hc), if_pos (by simp [hnum])],
      by rw [max_column, if_neg (not_not_intro hc), if_pos (by simp [hnum])],
      by rw [median_column, if_neg (not_not_intro hc), if_pos (by simp [hnum])]⟩
  · intro hg hv hex
    obtain ⟨w, hw, h1, h2⟩ := hex
    have hnum : numericList (df.series v) = false :=
      numericList_false_of_witness _ w hw h1 h2
    exact ⟨by rw [groupby_sum, if_neg (not_not_intro hg), if_neg (not_not_intro hv),
        if_pos (by simp [hnum])],
      by rw [groupby_average, if_neg (not_not_intro hg), if_neg (not_not_intro hv),
        if_pos (by simp [hnum])]⟩
  · intro h
    constructor
    · simp only [filter_and_aggregate]
      rw [if_pos h]
    · rfl
  · intro hfc hne hac haf
    simp only [List.mem_cons, List.not_mem_nil, or_false] at haf
    simp only [filter_and_aggregate]
    rw [if_neg (not_not_intro hfc), if_neg (by simp [hne])]
    rcases haf with rfl | rfl | rfl | rfl | rfl | rfl
    · simp [sum_column, filterRows, hac]
    · simp [average_column, filterRows, hac]
    · simp [min_column, filterRows, hac]
    · simp [max_column, filterRows, hac]
    · simp [median_column, filterRows, hac]
    · simp [count_column, filterRows, hac, Except.map]
  · intro hfc hne hac hex haf
    obtain ⟨w, hw, h1, h2⟩ := hex
    have hnum : numericList ((filterRows df fc fv).series ac) = false :=
      numericList_false_of_witness _ w hw h1 h2
    simp only [List.mem_cons, List.not_mem_nil, or_false] at haf
    simp only [filter_and_aggregate]
    rw [if_neg (not_not_intro hfc), if_neg (by simp [hne])]
    rcases haf with rfl | rfl | rfl | rfl | rfl
    · simp [sum_column, filterRows_cols, hac, hnum]
    · simp [average_column, filterRows_cols, hac, hnum]
    · simp [min_column, filterRows_cols, hac, hnum]
    · simp [max_column, filterRows_cols, hac, hnum]
    · simp [median_column, filterRows_cols, hac, hnum]

theorem column_validation_amended_witness :
    sum_column ⟨["a", "t"], [[Value.num 1, Value.str "x"]]⟩ "zz" =
      Except.error (columnNotFound "zz")
    ∧ sum_column ⟨["a", "t"], [[Value.num 1, Value.str "x"]]⟩ "t" =
      Except.error (notNumeric "t")
    ∧ filter_and_aggregate ⟨["a", "t"], [[Value.num 1, Value.str "x"]]⟩ "zz"
        (Value.str "x") "a" "sum" = Except.error (AggError.keyError "zz")
    ∧ filter_and_aggregate ⟨["a", "t"], [[Value.num 1, Value.str "x"]]⟩ "t"
        (Value.str "x") "zz" "sum" = Except.error (columnNotFound "zz") := by
  refine ⟨?_, ?_, ?_, ?_⟩
  · exact (column_validation_amended ⟨["a", "t"], [[Value.num 1, Value.str "x"]]⟩
      "zz" "g" "v" "fc" "ac" "af" (Value.str "x")).1 (by decide) |>.1
  · exact (column_validation_amended ⟨["a", "t"], [[Value.num 1, Value.str "x"]]⟩
      "t" "g" "v" "fc" "ac" "af" (Value.str "x")).2.2.2.1 (by decide) (by decide) |>.1
  · exact (column_validation_amended ⟨["a", "t"], [[Value.num 1, Value.str "x"]]⟩
      "c" "g" "v" "zz" "a" "sum" (Value.str "x")).2.2.2.2.2.1 (by decide) |>.1
  · exact (column_validation_amended ⟨["a", "t"], [[Value.num 1, Value.str "x"]]⟩
      "c" "g" "v" "t" "zz" "sum" (Value.str "x")).2.2.2.2.2.2.1 (by decide) (by decide)
      (by decide) (by decide)

end DataAggregator

theorem exceptMap_ok {α β : Type} (f : α → β) (a : α) :
    (Except.ok a : Except AggError α).map f = Except.ok (f a) := rfl

namespace DataAggregator

/-- C3 counterexample: on the dataset whose key column holds the integer 1
and the string "1" — two distinct group keys with the same `str` rendering
— the dict comprehension of `groupby_count` collapses the two groups into
one entry, so the partition sizes sum to 1 while the dataset has 2 rows,
every one of them with a non-null key (the null convention cannot explain
the deficit). -/
theorem groupby_count_counterexample :
    groupby_count ⟨["k"], [[Value.num 1], [Value.str "1"]]⟩ "k" =
      Except.ok [("1", 1)]
    ∧ count_rows ⟨["k"], [[Value.num 1], [Value.str "1"]]⟩ = 2
    ∧ (([("1", 1)] : List (String × ℕ)).map Prod.snd).sum = 1
    ∧ Value.null ∉ DataFrame.series ⟨["k"], [[Value.num 1], [Value.str "1"]]⟩ "k" := by
  refine ⟨by decide, rfl, rfl, by decide⟩

/-- C3 amended: whenever the grouping column exists and its distinct
non-null keys have pairwise distinct `str` renderings (so no dict-key
collision occurs), the partition sizes reported by `groupby_count` sum to
the number of rows whose group key is non-null — the implementation's
convention drops null-keyed rows — and hence to the dataset's total row
count whenever the column contains no null. -/
theorem groupby_count_partition_sum (df : DataFrame) (g : String) (hg : g ∈ df.cols)
    (hinj : (firstOcc ((df.series g).filter (fun w => !w.isNull))).Pairwise
      (fun k1 k2 => k1.render ≠ k2.render)) :
    (groupby_count df g).map (fun d => (d.map Prod.snd).sum) =
      Except.ok ((df.series g).filter (fun w => !w.isNull)).length
    ∧ (Value.null ∉ df.series g →
      (groupby_count df g).map (fun d => (d.map Prod.snd).sum) =
        Except.ok (count_rows df)) := by
  have hmain : (groupby_count df g).map (fun d => (d.map Prod.snd).sum) =
      Except.ok ((df.series g).filter (fun w => !w.isNull)).length := by
    rw [groupby_count, if_neg (not_not_intro hg), exceptMap_ok]
    have hnodup : (((firstOcc ((df.series g).filter (fun w => !w.isNull))).map
        (fun k => (k.render, ((df.series g).filter (fun w => w = k)).length))).map
          Prod.fst).Nodup := by
      rw [List.map_map]
      exact List.pairwise_map.mpr hinj
    rw [pyDict_eq_self _ hnodup, List.map_map]
    have hcongr : (firstOcc ((df.series g).filter (fun w => !w.isNull))).map
        (Prod.snd ∘ fun k => (k.render, ((df.series g).filter (fun w => w = k)).length)) =
        (firstOcc ((df.series g).filter (fun w => !w.isNull))).map
          (fun k => (((df.series g).filter (fun w => !w.isNull)).filter
            (fun w => w = k)).length) := by
      apply List.map_congr_left
      intro k hk
      have hkmem := (mem_firstOcc k _).mp hk
      have hknn : (!k.isNull) = true := (List.mem_filter.mp hkmem).2
      simp only [Function.comp_apply]
      rw [List.filter_filter]
      apply congrArg List.length
      apply List.filter_congr
      intro w hwmem
      by_cases hwk : w = k
      · subst hwk
        simp [hknn]
      · simp [hwk]
    rw [hcongr]
    rw [firstOcc_sum_counts]
  refine ⟨hmain, ?_⟩
  intro hnonull
  rw [hmain]
  have hself : (df.series g).filter (fun w => !w.isNull) = df.series g := by
    apply List.filter_eq_self.mpr
    intro a ha
    cases a with
    | num q => rfl
    | str s => rfl
    | null => exact absurd ha hnonull
  rw [hself]
  rw [count_rows, DataFrame.series, List.length_map]

theorem groupby_count_partition_sum_witness :
    (groupby_count ⟨["Dept", "Salary"],
        [[Value.str "IT", Value.num 80000],
         [Value.str "IT", Value.num 85000],
         [Value.str "HR", Value.num 60000]]⟩ "Dept").map
      (fun d => (d.map Prod.snd).sum) = Except.ok 3
    ∧ (groupby_count ⟨["Dept", "Salary"],
        [[Value.str "IT", Value.num 80000],
         [Value.str "IT", Value.num 85000],
         [Value.str "HR", Value.num 60000]]⟩ "Dept").map
      (fun d => (d.map Prod.snd).sum) =
        Except.ok (count_rows ⟨["Dept", "Salary"],
          [[Value.str "IT", Value.num 80000],
           [Value.str "IT", Value.num 85000],
           [Value.str "HR", Value.num 60000]]⟩) := by
  constructor
  · have h := (groupby_count_partition_sum ⟨["Dept", "Salary"],
        [[Value.str "IT", Value.num 80000],
         [Value.str "IT", Value.num 85000],
         [Value.str "HR", Value.num 60000]]⟩ "Dept" (by decide) (by decide)).1
    rw [h]
    decide
  · exact (groupby_count_partition_sum ⟨["Dept", "Salary"],
        [[Value.str "IT", Value.num 80000],
         [Value.str "IT", Value.num 85000],
         [Value.str "HR", Value.num 60000]]⟩ "Dept" (by decide) (by decide)).2 (by decide)

/-- C10 counterexample: on a null-free column with 21 distinct values,
`unique_count` reports 21 while `unique_values` is truncated to its first
20 entries, so the two notions do not agree on all null-free columns — the
agreement requires at most 20 distinct values. -/
theorem unique_values_truncation_counterexample :
    unique_count ⟨["c"], [[Value.num 0], [Value.num 1], [Value.num 2], [Value.num 3], [Value.num 4], [Value.num 5], [Value.num 6], [Value.num 7], [Value.num 8], [Value.num 9], [Value.num 10], [Value.num 11], [Value.num 12], [Value.num 13], [Value.num 14], [Value.num 15], [Value.num 16], [Value.num 17], [Value.num 18], [Value.num 19], [Value.num 20]]⟩ "c" = Except.ok 21
    ∧ (unique_values ⟨["c"], [[Value.num 0], [Value.num 1], [Value.num 2], [Value.num 3], [Value.num 4], [Value.num 5], [Value.num 6], [Value.num 7], [Value.num 8], [Value.num 9], [Value.num 10], [Value.num 11], [Value.num 12], [Value.num 13], [Value.num 14], [Value.num 15], [Value.num 16], [Value.num 17], [Value.num 18], [Value.num 19], [Value.num 20]]⟩ "c").map List.length = Except.ok 20
    ∧ Value.null ∉ DataFrame.series ⟨["c"], [[Value.num 0], [Value.num 1], [Value.num 2], [Value.num 3], [Value.num 4], [Value.num 5], [Value.num 6], [Value.num 7], [Value.num 8], [Value.num 9], [Value.num 10], [Value.num 11], [Value.num 12], [Value.num 13], [Value.num 14], [Value.num 15], [Value.num 16], [Value.num 17], [Value.num 18], [Value.num 19], [Value.num 20]]⟩ "c" := by
  refine ⟨by decide, by decide, by decide⟩

/-- C10 amended: for a column with at most 20 distinct values (null,
which `unique_values` keeps as one distinct entry, included in the
count), `unique_count` — which ignores nulls — is exactly one less than
the length of `unique_values` when the column contains a null, and the
two agree when it does not. -/
theorem unique_count_vs_unique_values (df : DataFrame) (c : String) (hc : c ∈ df.cols)
    (hsize : (firstOcc (df.series c)).length ≤ 20) :
    (Value.null ∈ df.series c →
      (unique_values df c).map List.length = (unique_count df c).map (fun n => n + 1))
    ∧ (Value.null ∉ df.series c →
      (unique_values df c).map List.length = (unique_count df c).map (fun n => n)) := by
  have hmem : ¬ c ∉ df.cols := not_not_intro hc
  constructor
  · intro hnull
    rw [unique_values, if_neg hmem, unique_count, if_neg hmem, exceptMap_ok, exceptMap_ok]
    rw [List.take_of_length_le hsize]
    rw [firstOcc_length_null, if_pos hnull]
  · intro hnonull
    rw [unique_values, if_neg hmem, unique_count, if_neg hmem, exceptMap_ok, exceptMap_ok]
    rw [List.take_of_length_le hsize]
    rw [firstOcc_length_null, if_neg hnonull, Nat.add_zero]

theorem unique_count_vs_unique_values_witness :
    (unique_values ⟨["c"], [[Value.num 1], [Value.null], [Value.num 1]]⟩ "c").map
        List.length =
      (unique_count ⟨["c"], [[Value.num 1], [Value.null], [Value.num 1]]⟩ "c").map
        (fun n => n + 1)
    ∧ (unique_values ⟨["c"], [[Value.num 1], [Value.num 2]]⟩ "c").map List.length =
      (unique_count ⟨["c"], [[Value.num 1], [Value.num 2]]⟩ "c").map (fun n => n) :=
  ⟨(unique_count_vs_unique_values ⟨["c"], [[Value.num 1], [Value.null], [Value.num 1]]⟩
      "c" (by decide) (by decide)).1 (by decide),
   (unique_count_vs_unique_values ⟨["c"], [[Value.num 1], [Value.num 2]]⟩
      "c" (by decide) (by decide)).2 (by decide)⟩

end DataAggregator
